import Mathlib

/-!
Shallow embedding of the avoidance local planner core, translated from
src/local_planner/src/nodes/local_planner.cpp and
src/local_planner/src/nodes/local_planner_node.cpp.

Modelling conventions:
 - C++ float values are embedded as rationals, reading the source literals
   exactly (0.5f becomes 1/2, 0.02f becomes 1/50, and so on); machine
   integers are Nat or Int as the source type dictates.
 - Geometric helpers that live in common.cpp (polarToCartesian, the
   Euclidean norms, getYawFromQuaternion, getPitchFromQuaternion) are not
   part of the two embedded source files; functions that call them take
   them as explicit function parameters, so every theorem holds for the
   actual geometry in particular.
 - Results computed by planner_functions.cpp / star_planner.cpp
   (filterPointCloud outputs, the combined-histogram emptiness flag, the
   best-candidate list, the measured tick time) are per-tick inputs,
   gathered in the TickData record, exactly as determineStrategy consumes
   them.
 - The two parallel arrays pushed in lockstep by reprojectPoints
   (reprojected_points_ and reprojected_points_age_) are modelled as one
   list of pairs.
-/

namespace Avoidance

/-- Cartesian 3-vector with rational coordinates, standing in for Eigen::Vector3f. -/
structure Vec3 where
  x : ℚ
  y : ℚ
  z : ℚ
deriving DecidableEq

/-- Componentwise subtraction, standing in for Eigen vector subtraction. -/
def Vec3.sub (a b : Vec3) : Vec3 :=
  ⟨a.x - b.x, a.y - b.y, a.z - b.z⟩

/-- Quaternion record, standing in for Eigen::Quaternionf. -/
structure Quatf where
  w : ℚ
  x : ℚ
  y : ℚ
  z : ℚ
deriving DecidableEq

/-- Polar point as in common.h: elevation angle e, azimuth angle z, radius r. -/
structure PolarPoint where
  e : ℚ
  z : ℚ
  r : ℚ
deriving DecidableEq

/-- Geometric helpers from common.cpp, which is not among the embedded
sources: a 3D vector norm and a 2D norm of two components. The planner
functions take this record as a parameter and are proved for every
instantiation, hence for the Euclidean norms in particular. -/
structure Geo where
  norm3 : Vec3 → ℚ
  norm2 : ℚ → ℚ → ℚ

/-- The waypoint_choice enumeration used by the strategy selector. -/
inductive WaypointType where
  | hover
  | costmap
  | tryPath
  | direct
  | reachHeight
  | goBack
deriving DecidableEq

/-- One entry of candidate_vector_: a candidate direction with elevation
and azimuth angles, as produced by getBestCandidatesFromCostMatrix. -/
structure CandidateDirection where
  elevation_angle : ℚ
  azimuth_angle : ℚ
deriving DecidableEq

/-- Modelled from the spec: ALPHA_RES is defined in histogram.h, which is
not among the embedded sources; the spec fixes the angular resolution at
6 degrees. -/
def ALPHA_RES : ℕ := 6

/-- Modelled from the spec: E = 180 / alpha rows of the polar histogram. -/
def GRID_LENGTH_E : ℕ := 180 / ALPHA_RES

/-- Modelled from the spec: Z = 360 / alpha columns of the polar histogram. -/
def GRID_LENGTH_Z : ℕ := 360 / ALPHA_RES

/-- FLT_MIN, the smallest positive normal single-precision float, used by
reprojectPoints as its cell-emptiness threshold. -/
def fltMin : ℚ := 1 / 2 ^ 126

/-- UINT16_MAX, the sentinel written to obstacle-distance bins outside the FOV. -/
def UINT16_MAX : ℚ := 65535

/-- The LaserScan range_max set by updateObstacleDistanceMsg (20.0f). -/
def range_max : ℚ := 20

/-- Modelled from the spec: histogramIndexToPolar lives in common.cpp,
which is not among the embedded sources; the spec gives
elevation = (e+0.5)*alpha - 90 and azimuth = (z+0.5)*alpha - 180 with the
radius passed through. -/
def histogramIndexToPolar (e z : ℕ) (res : ℕ) (radius : ℚ) : PolarPoint :=
  ⟨((e : ℚ) + 1/2) * (res : ℚ) - 90, ((z : ℚ) + 1/2) * (res : ℚ) - 180, radius⟩

/-- Persistent LocalPlanner state: the member variables of the LocalPlanner
class that the embedded member functions read or write, plus the goal and
pose mirrored into the StarPlanner by applyGoal and setPose. -/
structure PlannerState where
  position : Vec3
  position_old : Vec3
  goal : Vec3
  take_off_pose : Vec3
  closest_point : Vec3
  back_off_point : Vec3
  back_off_start_point : Vec3
  star_pose : Vec3
  star_yaw : ℚ
  star_goal : Vec3
  star_tree_age : ℤ
  curr_yaw_fcu_frame : ℚ
  curr_pitch_fcu_frame : ℚ
  currently_armed : Bool
  disable_rise_to_goal_altitude : Bool
  reach_altitude : Bool
  obstacle : Bool
  back_off : Bool
  stop_in_front : Bool
  stop_in_front_active : Bool
  use_back_off : Bool
  use_VFH_star : Bool
  adapt_cost_params : Bool
  send_obstacles_fcu : Bool
  use_vel_setpoints : Bool
  first_brake : Bool
  hist_is_empty : Bool
  waypoint_type : WaypointType
  starting_height : ℚ
  cloud_size : ℕ
  counter_close_points_backoff : ℤ
  distance_to_closest_point : ℚ
  min_cloud_size : ℕ
  min_dist_backoff : ℚ
  min_realsense_dist : ℚ
  keep_distance : ℚ
  box_radius : ℚ
  reproj_age : ℚ
  no_progress_slope : ℚ
  timeout_critical : ℚ
  timeout_termination : ℚ
  velocity_around_obstacles : ℚ
  velocity_far_from_obstacles : ℚ
  velocity_sigmoid_slope : ℚ
  smoothing_margin_degrees : ℚ
  children_per_node : ℤ
  n_expanded_nodes : ℤ
  goal_cost_param : ℚ
  heading_cost_param : ℚ
  smooth_cost_param : ℚ
  height_change_cost_param : ℚ
  height_change_cost_param_adapted : ℚ
  costmap_direction_e : ℚ
  costmap_direction_z : ℚ
  goal_dist_incline : List ℚ
  dist_incline_window_size : ℕ

/-- Per-tick inputs of runPlanner computed by code outside the two embedded
source files: the filterPointCloud outputs (filtered cloud size, closest
point, its distance, the count of very-close points), the emptiness flag of
the combined histogram written by create2DObstacleRepresentation, the
candidate list from getBestCandidatesFromCostMatrix, and the wall-clock
interval used by evaluateProgressRate. -/
structure TickData where
  cloud_size : ℕ
  closest_point : Vec3
  distance_to_closest_point : ℚ
  counter_close_points_backoff : ℤ
  hist_is_empty : Bool
  candidates : List CandidateDirection
  time_diff_sec : ℚ

/-- The dynamic-reconfigure parameter set consumed by
LocalPlanner::dynamicReconfigureSetParams. -/
structure NodeConfig where
  box_radius : ℚ
  goal_cost_param : ℚ
  heading_cost_param : ℚ
  smooth_cost_param : ℚ
  velocity_around_obstacles : ℚ
  velocity_far_from_obstacles : ℚ
  keep_distance : ℚ
  reproj_age : ℚ
  velocity_sigmoid_slope : ℚ
  no_progress_slope : ℚ
  min_cloud_size : ℕ
  min_realsense_dist : ℚ
  min_dist_backoff : ℚ
  timeout_critical : ℚ
  timeout_termination : ℚ
  children_per_node : ℤ
  n_expanded_nodes : ℤ
  smoothing_margin_degrees : ℚ
  goal_z_param : ℚ
  use_vel_setpoints : Bool
  stop_in_front : Bool
  use_back_off : Bool
  use_VFH_star : Bool
  adapt_cost_params : Bool
  send_obstacles_fcu : Bool

/-- LocalPlanner::setPose (local_planner.cpp lines 17-28): update position,
yaw and pitch, mirror the pose into the star planner, and when the vehicle
is not armed and rise-to-goal-altitude is enabled record the take-off pose
and clear reach_altitude. The yaw and pitch extractors live in common.cpp
and are taken as parameters. -/
def setPose (getYaw getPitch : Quatf → ℚ) (s : PlannerState) (pos : Vec3)
    (q : Quatf) : PlannerState :=
  let s := { s with position := pos,
                    curr_yaw_fcu_frame := getYaw q,
                    curr_pitch_fcu_frame := getPitch q,
                    star_pose := pos,
                    star_yaw := getYaw q }
  if !s.currently_armed && !s.disable_rise_to_goal_altitude then
    { s with take_off_pose := s.position, reach_altitude := false }
  else
    s

/-- LocalPlanner::applyGoal (local_planner.cpp lines 82-85): push the goal
into the star planner and clear the goal-distance-incline window. -/
def applyGoal (s : PlannerState) : PlannerState :=
  { s with star_goal := s.goal, goal_dist_incline := [] }

/-- LocalPlanner::setGoal (local_planner.cpp lines 73-78): store the goal
and apply it. -/
def setGoal (s : PlannerState) (g : Vec3) : PlannerState :=
  applyGoal { s with goal := g }

/-- LocalPlanner::dynamicReconfigureSetParams (local_planner.cpp lines
31-71): copy the reconfigured parameters, and when the configured goal
altitude differs from the stored goal altitude re-set the goal with the
new z. Star-planner parameter forwarding has no modelled state. -/
def dynamicReconfigureSetParams (s : PlannerState) (c : NodeConfig) :
    PlannerState :=
  let s := { s with box_radius := c.box_radius,
                    goal_cost_param := c.goal_cost_param,
                    heading_cost_param := c.heading_cost_param,
                    smooth_cost_param := c.smooth_cost_param,
                    velocity_around_obstacles := c.velocity_around_obstacles,
                    velocity_far_from_obstacles := c.velocity_far_from_obstacles,
                    keep_distance := c.keep_distance,
                    reproj_age := c.reproj_age,
                    velocity_sigmoid_slope := c.velocity_sigmoid_slope,
                    no_progress_slope := c.no_progress_slope,
                    min_cloud_size := c.min_cloud_size,
                    min_realsense_dist := c.min_realsense_dist,
                    min_dist_backoff := c.min_dist_backoff,
                    timeout_critical := c.timeout_critical,
                    timeout_termination := c.timeout_termination,
                    children_per_node := c.children_per_node,
                    n_expanded_nodes := c.n_expanded_nodes,
                    smoothing_margin_degrees := c.smoothing_margin_degrees }
  let s := if s.goal.z ≠ c.goal_z_param then
      setGoal s ⟨s.goal.x, s.goal.y, c.goal_z_param⟩
    else s
  { s with use_vel_setpoints := c.use_vel_setpoints,
           stop_in_front := c.stop_in_front,
           use_back_off := c.use_back_off,
           use_VFH_star := c.use_VFH_star,
           adapt_cost_params := c.adapt_cost_params,
           send_obstacles_fcu := c.send_obstacles_fcu }

/-- LocalPlanner::stopInFrontObstacles (local_planner.cpp lines 429-444):
on the first braking tick, move the goal to the point at distance
abs(distance_to_closest_point - keep_distance) from the current position
along the horizontal direction toward the original goal, clear first_brake
and latch stop_in_front_active; on later ticks do nothing. -/
def stopInFrontObstacles (geo : Geo) (s : PlannerState) : PlannerState :=
  if s.first_brake then
    let braking_distance := |s.distance_to_closest_point - s.keep_distance|
    let ptgx := s.goal.x - s.position.x
    let ptgy := s.goal.y - s.position.y
    let n := geo.norm2 ptgx ptgy
    { s with goal := ⟨s.position.x + braking_distance * ptgx / n,
                      s.position.y + braking_distance * ptgy / n,
                      s.goal.z⟩,
             first_brake := false,
             stop_in_front_active := true }
  else
    s

/-- LocalPlanner::create2DObstacleRepresentation restricted to the state
modelled here: combinedHistogram rewrites hist_is_empty_ on every call; the
histograms themselves and the FCU message are produced by
planner_functions.cpp and updateObstacleDistanceMsg (modelled separately). -/
def create2DObstacleRepresentation (td : TickData) (s : PlannerState) :
    PlannerState :=
  { s with hist_is_empty := td.hist_is_empty }

/-- The per-tick goal-distance derivative of evaluateProgressRate
(local_planner.cpp lines 383-389): the change of the distance to the goal
between the previous and the current position, over the tick interval. -/
def tickIncline (geo : Geo) (time_diff_sec : ℚ) (s : PlannerState) : ℚ :=
  (geo.norm3 (s.position.sub s.goal) -
    geo.norm3 (s.position_old.sub s.goal)) / time_diff_sec

/-- The sliding window after this tick (local_planner.cpp lines 392-395):
push the new incline and pop the front when the window exceeds
dist_incline_window_size. -/
def inclineWindow (geo : Geo) (time_diff_sec : ℚ) (s : PlannerState) :
    List ℚ :=
  let w0 := s.goal_dist_incline ++ [tickIncline geo time_diff_sec s]
  if w0.length > s.dist_incline_window_size then w0.tail else w0

/-- The window average of evaluateProgressRate (local_planner.cpp lines
397-403). -/
def avgIncline (geo : Geo) (time_diff_sec : ℚ) (s : PlannerState) : ℚ :=
  (inclineWindow geo time_diff_sec s).sum /
    ((inclineWindow geo time_diff_sec s).length : ℚ)

/-- LocalPlanner::evaluateProgressRate (local_planner.cpp lines 381-425):
when reach_altitude and adapt_cost_params hold, push the goal-distance
derivative of this tick into the sliding window (popping the front when the
window overflows), and move the adapted height-change weight by -0.02 when
the window average exceeds no_progress_slope with a full window and the
weight is above 0.75, or by +0.03 when the average is below the slope and
the weight is below the nominal weight minus 0.03; otherwise reset the
adapted weight to the nominal weight. -/
def evaluateProgressRate (geo : Geo) (time_diff_sec : ℚ) (s : PlannerState) :
    PlannerState :=
  if s.reach_altitude && s.adapt_cost_params then
    let w := inclineWindow geo time_diff_sec s
    let avg_incline := avgIncline geo time_diff_sec s
    let a1 := if avg_incline > s.no_progress_slope ∧
                 w.length = s.dist_incline_window_size then
        (if s.height_change_cost_param_adapted > 3/4 then
          s.height_change_cost_param_adapted - 1/50
         else s.height_change_cost_param_adapted)
      else s.height_change_cost_param_adapted
    let a2 := if avg_incline < s.no_progress_slope then
        (if a1 < s.height_change_cost_param - 3/100 then a1 + 3/100 else a1)
      else a1
    { s with goal_dist_incline := w, height_change_cost_param_adapted := a2 }
  else
    { s with height_change_cost_param_adapted := s.height_change_cost_param }

/-- Branch of determineStrategy for reach_altitude still false
(local_planner.cpp lines 157-170). -/
def reachHeightBranch (td : TickData) (s : PlannerState) : PlannerState :=
  let s := { s with starting_height := max (s.goal.z - 1/2) (s.take_off_pose.z + 1),
                    waypoint_type := WaypointType.reachHeight }
  let s := if s.position.z > s.starting_height then
      { s with reach_altitude := true, waypoint_type := WaypointType.direct }
    else s
  if s.send_obstacles_fcu then create2DObstacleRepresentation td s else s

/-- Branch of determineStrategy for stop-in-front (local_planner.cpp lines
171-181). -/
def stopInFrontBranch (geo : Geo) (td : TickData) (s : PlannerState) :
    PlannerState :=
  let s := { s with obstacle := true }
  let s := stopInFrontObstacles geo s
  let s := { s with waypoint_type := WaypointType.direct }
  if s.send_obstacles_fcu then create2DObstacleRepresentation td s else s

/-- Branch of determineStrategy for backing off (local_planner.cpp lines
183-201). -/
def backOffBranch (geo : Geo) (td : TickData) (s : PlannerState) :
    PlannerState :=
  let s :=
    if s.back_off = false then
      { s with back_off_point := s.closest_point,
               back_off_start_point := s.position,
               back_off := true }
    else if geo.norm3 (s.position.sub s.back_off_point) >
        s.min_dist_backoff + 1 then
      { s with back_off := false }
    else s
  let s := { s with waypoint_type := WaypointType.goBack }
  if s.send_obstacles_fcu then create2DObstacleRepresentation td s else s

/-- Branch of determineStrategy for cost-map / tree planning
(local_planner.cpp lines 202-262). The star-planner setters and
getCostMatrix touch no modelled state; the VFH-star sub-branch only sets
tryPath here. -/
def costmapBranch (geo : Geo) (td : TickData) (s : PlannerState) :
    PlannerState :=
  let s := evaluateProgressRate geo td.time_diff_sec s
  let s := create2DObstacleRepresentation td s
  let s := if s.hist_is_empty then
      { s with obstacle := false, waypoint_type := WaypointType.tryPath }
    else s
  let s :=
    if s.hist_is_empty = false ∧ s.reach_altitude = true then
      let s := { s with obstacle := true }
      if s.use_VFH_star then
        { s with waypoint_type := WaypointType.tryPath }
      else
        match td.candidates with
        | [] =>
          let s := stopInFrontObstacles geo s
          { s with waypoint_type := WaypointType.direct, stop_in_front := true }
        | c :: _ =>
          { s with costmap_direction_e := c.elevation_angle,
                   costmap_direction_z := c.azimuth_angle,
                   waypoint_type := WaypointType.costmap }
    else s
  { s with first_brake := true }

/-- LocalPlanner::determineStrategy (local_planner.cpp lines 146-265):
bump the tree age, force reach_altitude when rise-to-goal-altitude is
disabled, dispatch among the four behavior branches exactly as the
if/else-if chain does, and finally record position_old. -/
def determineStrategy (geo : Geo) (td : TickData) (s0 : PlannerState) :
    PlannerState :=
  let s1 := { s0 with star_tree_age := s0.star_tree_age + 1 }
  let s2 := if s1.disable_rise_to_goal_altitude then
      { s1 with reach_altitude := true }
    else s1
  let s3 :=
    if s2.reach_altitude = false then
      reachHeightBranch td s2
    else if s2.cloud_size > s2.min_cloud_size ∧ s2.stop_in_front = true ∧
        s2.reach_altitude = true then
      stopInFrontBranch geo td s2
    else if ((s2.counter_close_points_backoff > 200 ∧
              s2.cloud_size > s2.min_cloud_size) ∨ s2.back_off = true) ∧
        s2.reach_altitude = true ∧ s2.use_back_off = true then
      backOffBranch geo td s2
    else
      costmapBranch geo td s2
  { s3 with position_old := s3.position }

/-- LocalPlanner::runPlanner (local_planner.cpp lines 87-106): clear the
stop_in_front_active latch, take over the filterPointCloud outputs for this
tick (the FOV and box-limit computations touch no modelled state), and run
determineStrategy. -/
def runPlanner (geo : Geo) (td : TickData) (s : PlannerState) : PlannerState :=
  let s := { s with stop_in_front_active := false }
  let s := { s with cloud_size := td.cloud_size,
                    closest_point := td.closest_point,
                    distance_to_closest_point := td.distance_to_closest_point,
                    counter_close_points_backoff := td.counter_close_points_backoff }
  determineStrategy geo td s

/-- Rotation of an FOV azimuth index by 180 degrees to point to local north
(local_planner.cpp lines 279-287). -/
def northIndex (i : ℤ) : ℤ :=
  let new_idx := i + (GRID_LENGTH_Z : ℤ) / 2
  if new_idx ≥ (GRID_LENGTH_Z : ℤ) then new_idx - (GRID_LENGTH_Z : ℤ)
  else new_idx

/-- Rotation of a message bin index back into the histogram frame
(local_planner.cpp lines 297-301). -/
def southIndex (idx : ℤ) : ℤ :=
  let hist_idx := idx - (GRID_LENGTH_Z : ℤ) / 2
  if hist_idx < 0 then hist_idx + (GRID_LENGTH_Z : ℤ) else hist_idx

/-- One bin of the obstacle-distance message (local_planner.cpp lines
290-311): the maximum-u16 sentinel when the bin is not in the rotated FOV
set, otherwise the elevation-0 histogram distance at the rotated-back
index, with zero cells replaced by range_max + 1. -/
def obstacleDistanceBin (hist : ℕ → ℕ → ℚ) (north : List ℤ) (idx : ℤ) : ℚ :=
  if idx ∉ north then UINT16_MAX
  else if hist 0 (southIndex idx).toNat = 0 then range_max + 1
  else hist 0 (southIndex idx).toNat

/-- LocalPlanner::updateObstacleDistanceMsg (local_planner.cpp lines
267-314): the ranges array of the LaserScan sent to the flight controller,
built from the elevation-compressed histogram (passed as a function from
indices to cell distance) and the FOV azimuth index set. -/
def updateObstacleDistanceMsg (hist : ℕ → ℕ → ℚ) (z_FOV_idx : List ℤ) :
    List ℚ :=
  let z_FOV_idx_north := z_FOV_idx.map northIndex
  (List.range GRID_LENGTH_Z).map fun (idx : ℕ) =>
    obstacleDistanceBin hist z_FOV_idx_north ((idx : ℕ) : ℤ)

/-- The four corner polar points of histogram cell (e, z) with radius r
(local_planner.cpp lines 344-357): the cell center offset by plus or minus
half the angular resolution in elevation and azimuth. -/
def cellCorners (e z : ℕ) (r : ℚ) : List PolarPoint :=
  let p := histogramIndexToPolar e z ALPHA_RES r
  let h : ℚ := (ALPHA_RES : ℚ) / 2
  [⟨p.e + h, p.z + h, p.r⟩,
   ⟨p.e - h, p.z + h, p.r⟩,
   ⟨p.e + h, p.z - h, p.r⟩,
   ⟨p.e - h, p.z - h, p.r⟩]

/-- LocalPlanner::reprojectPoints (local_planner.cpp lines 328-378): for
every cell of the previous histogram with distance above FLT_MIN, cast its
four corner points through the previous vehicle position
(polarToCartesian is a parameter, as it lives in common.cpp), and keep a
corner together with the cell age when its distance to the current position
is below twice the box radius and above 0.3 and the age is below
reproj_age. The two parallel output arrays are modelled as a list of
point-age pairs. -/
def reprojectPoints (p2c : PolarPoint → Vec3 → Vec3) (norm3 : Vec3 → ℚ)
    (hist_dist : ℕ → ℕ → ℚ) (hist_age : ℕ → ℕ → ℤ)
    (position position_old : Vec3) (box_radius reproj_age : ℚ) :
    List (Vec3 × ℤ) :=
  (List.range GRID_LENGTH_E).flatMap fun e =>
    (List.range GRID_LENGTH_Z).flatMap fun z =>
      if fltMin < hist_dist e z then
        (cellCorners e z (hist_dist e z)).filterMap fun pp =>
          let pt := p2c pp position_old
          let dist := norm3 (position.sub pt)
          if dist < 2 * box_radius ∧ dist > 3/10 ∧
              (hist_age e z : ℚ) < reproj_age then
            some (pt, hist_age e z)
          else none
      else []

/-- Companion-process states used by checkFailsafe (MAV_STATE values). -/
inductive MavState where
  | active
  | critical
  | flightTermination
  | other
deriving DecidableEq

/-- The boundary-layer variables checkFailsafe reads and writes:
planner_is_healthy, the hover request, and the system status message state. -/
structure FailsafeState where
  planner_is_healthy : Bool
  hover : Bool
  status : MavState
deriving DecidableEq

/-- LocalPlannerNode::checkFailsafe (local_planner_node.cpp lines
1059-1101): when both elapsed times exceed timeout_termination and the
planner is still marked healthy, mark it unhealthy and set the status to
flight termination; otherwise, when both exceed timeout_critical and a
position has been received, request hover and set the status to critical. -/
def checkFailsafe (since_last_cloud since_start : ℚ)
    (timeout_critical timeout_termination : ℚ) (position_received : Bool)
    (f : FailsafeState) : FailsafeState :=
  if since_last_cloud > timeout_termination ∧
      since_start > timeout_termination then
    if f.planner_is_healthy then
      { f with planner_is_healthy := false, status := MavState.flightTermination }
    else f
  else
    if since_last_cloud > timeout_critical ∧ since_start > timeout_critical then
      if position_received then
        { f with hover := true, status := MavState.critical }
      else f
    else f

/-- The wakeup condition of the worker thread's condition-variable wait
(local_planner_node.cpp line 1040): the wait is released only when
data_ready_ is set and the shutdown flag is not. -/
def workerWakeCondition (data_ready should_exit : Bool) : Bool :=
  data_ready && !should_exit

/-- The zero vector, used to populate concrete test states. -/
def zeroVec : Vec3 := ⟨0, 0, 0⟩

/-- A concrete geometry used for concrete evaluations: the taxicab norms.
Every general theorem below is parametric in the geometry, so any concrete
instantiation is legitimate for witnesses and counterexamples. -/
def geoC : Geo :=
  ⟨fun v => |v.x| + |v.y| + |v.z|, fun x y => |x| + |y|⟩

/-- A neutral concrete planner state that the concrete scenarios below
specialize field by field. -/
def baseState : PlannerState :=
  { position := zeroVec, position_old := zeroVec, goal := zeroVec,
    take_off_pose := zeroVec, closest_point := zeroVec,
    back_off_point := zeroVec, back_off_start_point := zeroVec,
    star_pose := zeroVec, star_yaw := 0, star_goal := zeroVec,
    star_tree_age := 0, curr_yaw_fcu_frame := 0, curr_pitch_fcu_frame := 0,
    currently_armed := false, disable_rise_to_goal_altitude := false,
    reach_altitude := true, obstacle := false, back_off := false,
    stop_in_front := false, stop_in_front_active := false,
    use_back_off := false, use_VFH_star := false, adapt_cost_params := false,
    send_obstacles_fcu := false, use_vel_setpoints := false,
    first_brake := true, hist_is_empty := true,
    waypoint_type := WaypointType.hover, starting_height := 0,
    cloud_size := 0, counter_close_points_backoff := 0,
    distance_to_closest_point := 0, min_cloud_size := 0,
    min_dist_backoff := 0, min_realsense_dist := 1/5, keep_distance := 0,
    box_radius := 12, reproj_age := 5, no_progress_slope := 0,
    timeout_critical := 1/2, timeout_termination := 15,
    velocity_around_obstacles := 1, velocity_far_from_obstacles := 3,
    velocity_sigmoid_slope := 1, smoothing_margin_degrees := 30,
    children_per_node := 3, n_expanded_nodes := 5, goal_cost_param := 2,
    heading_cost_param := 1/2, smooth_cost_param := 3/2,
    height_change_cost_param := 4, height_change_cost_param_adapted := 4,
    costmap_direction_e := 0, costmap_direction_z := 0,
    goal_dist_incline := [], dist_incline_window_size := 10 }

/-- Neutral concrete per-tick data for the concrete scenarios. -/
def tdBase : TickData :=
  { cloud_size := 0, closest_point := zeroVec,
    distance_to_closest_point := 0, counter_close_points_backoff := 0,
    hist_is_empty := true, candidates := [], time_diff_sec := 1 }

/-- Claim C8, counterexample: with timeout_critical = 1, timeout_termination
= 2 and both elapsed times equal to 3, both times exceed timeout_critical,
yet checkFailsafe does not request hover and does not raise the status to
critical: the termination branch runs instead. -/
theorem C8_counterexample :
    (3 : ℚ) > 1 ∧
    (checkFailsafe 3 3 1 2 true ⟨true, false, MavState.active⟩).hover = false ∧
    (checkFailsafe 3 3 1 2 true ⟨true, false, MavState.active⟩).status =
      MavState.flightTermination ∧
    MavState.flightTermination ≠ MavState.critical := by
  decide

/-- Claim C8, amended: when both elapsed times exceed timeout_critical but
not both exceed timeout_termination, and a position has been received,
checkFailsafe requests hover and raises the status to critical; when both
exceed timeout_termination and the planner is still marked healthy, it
marks the planner unhealthy and sets the flight-termination state. -/
theorem C8_amended (slc ss tc tt : ℚ) (pr : Bool) (f : FailsafeState) :
    (slc > tc → ss > tc → ¬(slc > tt ∧ ss > tt) → pr = true →
      (checkFailsafe slc ss tc tt pr f).hover = true ∧
      (checkFailsafe slc ss tc tt pr f).status = MavState.critical) ∧
    (slc > tt → ss > tt → f.planner_is_healthy = true →
      (checkFailsafe slc ss tc tt pr f).status = MavState.flightTermination ∧
      (checkFailsafe slc ss tc tt pr f).planner_is_healthy = false) := by
  unfold checkFailsafe
  constructor
  · intro h1 h2 h3 h4
    rw [if_neg h3, if_pos ⟨h1, h2⟩, h4]
    simp
  · intro h1 h2 h3
    rw [if_pos ⟨h1, h2⟩, h3]
    simp

/-- Claim C8, witness: the amended theorem applied at concrete inputs for
both the critical and the termination branches. -/
theorem C8_witness :
    ((checkFailsafe 3 3 1 5 true ⟨true, false, MavState.active⟩).hover = true ∧
     (checkFailsafe 3 3 1 5 true ⟨true, false, MavState.active⟩).status =
       MavState.critical) ∧
    ((checkFailsafe 7 7 1 5 true ⟨true, false, MavState.active⟩).status =
       MavState.flightTermination ∧
     (checkFailsafe 7 7 1 5 true
       ⟨true, false, MavState.active⟩).planner_is_healthy = false) :=
  ⟨(C8_amended 3 3 1 5 true ⟨true, false, MavState.active⟩).1
      (by norm_num) (by norm_num) (by norm_num) rfl,
   (C8_amended 7 7 1 5 true ⟨true, false, MavState.active⟩).2
      (by norm_num) (by norm_num) rfl⟩

/-- Claim C9: the shutdown handshake cannot work as specified. The worker
waits on the condition variable with the wakeup condition
data_ready_ AND NOT should_exit_, which is false for every value of
data_ready_ once the shutdown flag is set, so setting the flag and
notifying never releases the wait and the worker cannot observe the flag
and exit; the subsequent should_exit_ test after the wait is unreachable
with the flag set. -/
theorem C9_shutdown_never_wakes :
    ∀ d : Bool, workerWakeCondition d true = false := by
  decide

/-- Claim C10: after setGoal the stored goal equals the argument, the star
planner's goal is updated to it and the goal-distance-incline window is
empty; the same holds for the goal-altitude update performed by
dynamicReconfigureSetParams when goal_z_param differs from the stored
goal's z, which re-sets the goal with the configured altitude. -/
theorem C10_setGoal_applies (s : PlannerState) (g : Vec3) (c : NodeConfig)
    (hz : s.goal.z ≠ c.goal_z_param) :
    ((setGoal s g).goal = g ∧ (setGoal s g).star_goal = g ∧
      (setGoal s g).goal_dist_incline = []) ∧
    ((dynamicReconfigureSetParams s c).goal =
        ⟨s.goal.x, s.goal.y, c.goal_z_param⟩ ∧
      (dynamicReconfigureSetParams s c).star_goal =
        ⟨s.goal.x, s.goal.y, c.goal_z_param⟩ ∧
      (dynamicReconfigureSetParams s c).goal_dist_incline = []) := by
  refine ⟨⟨rfl, rfl, rfl⟩, ?_⟩
  simp only [dynamicReconfigureSetParams, setGoal, applyGoal]
  rw [if_pos hz]
  exact ⟨rfl, rfl, rfl⟩

/-- Claim C10, witness: setGoal and the reconfigure-driven goal-altitude
update evaluated at a concrete state, goal and parameter set. -/
theorem C10_witness :
    ((setGoal baseState ⟨9, 13, 7/2⟩).goal = ⟨9, 13, 7/2⟩ ∧
     (setGoal baseState ⟨9, 13, 7/2⟩).star_goal = ⟨9, 13, 7/2⟩ ∧
     (setGoal baseState ⟨9, 13, 7/2⟩).goal_dist_incline = []) ∧
    ((dynamicReconfigureSetParams baseState
        { box_radius := 12, goal_cost_param := 2, heading_cost_param := 1/2,
          smooth_cost_param := 3/2, velocity_around_obstacles := 1,
          velocity_far_from_obstacles := 3, keep_distance := 2,
          reproj_age := 5, velocity_sigmoid_slope := 1,
          no_progress_slope := 0, min_cloud_size := 160,
          min_realsense_dist := 1/5, min_dist_backoff := 3,
          timeout_critical := 1/2, timeout_termination := 15,
          children_per_node := 3, n_expanded_nodes := 5,
          smoothing_margin_degrees := 30, goal_z_param := 7/2,
          use_vel_setpoints := false, stop_in_front := false,
          use_back_off := false, use_VFH_star := false,
          adapt_cost_params := false, send_obstacles_fcu := false }).goal =
      ⟨0, 0, 7/2⟩ ∧
     (dynamicReconfigureSetParams baseState
        { box_radius := 12, goal_cost_param := 2, heading_cost_param := 1/2,
          smooth_cost_param := 3/2, velocity_around_obstacles := 1,
          velocity_far_from_obstacles := 3, keep_distance := 2,
          reproj_age := 5, velocity_sigmoid_slope := 1,
          no_progress_slope := 0, min_cloud_size := 160,
          min_realsense_dist := 1/5, min_dist_backoff := 3,
          timeout_critical := 1/2, timeout_termination := 15,
          children_per_node := 3, n_expanded_nodes := 5,
          smoothing_margin_degrees := 30, goal_z_param := 7/2,
          use_vel_setpoints := false, stop_in_front := false,
          use_back_off := false, use_VFH_star := false,
          adapt_cost_params := false,
          send_obstacles_fcu := false }).goal_dist_incline = []) := by
  have h := C10_setGoal_applies baseState ⟨9, 13, 7/2⟩
    { box_radius := 12, goal_cost_param := 2, heading_cost_param := 1/2,
      smooth_cost_param := 3/2, velocity_around_obstacles := 1,
      velocity_far_from_obstacles := 3, keep_distance := 2,
      reproj_age := 5, velocity_sigmoid_slope := 1,
      no_progress_slope := 0, min_cloud_size := 160,
      min_realsense_dist := 1/5, min_dist_backoff := 3,
      timeout_critical := 1/2, timeout_termination := 15,
      children_per_node := 3, n_expanded_nodes := 5,
      smoothing_margin_degrees := 30, goal_z_param := 7/2,
      use_vel_setpoints := false, stop_in_front := false,
      use_back_off := false, use_VFH_star := false,
      adapt_cost_params := false, send_obstacles_fcu := false }
    (by norm_num [baseState, zeroVec])
  exact ⟨h.1, h.2.1, h.2.2.2⟩

/-- Concrete stop-in-front scenario: reach_altitude holds, the filtered
cloud is non-trivial, stop_in_front is enabled, the first brake is pending,
the goal lies 3 m ahead along x and the closest obstacle is at 1 m with
keep_distance 2 m, so distance_to_closest minus keep_distance is negative. -/
def sC1 : PlannerState :=
  { baseState with reach_altitude := true, stop_in_front := true,
                   first_brake := true, keep_distance := 2,
                   position := ⟨0, 0, 5⟩, goal := ⟨3, 0, 5⟩ }

/-- Tick data for the sC1 scenario: one cloud point whose distance to the
vehicle is 1 m. -/
def tdC1 : TickData :=
  { tdBase with cloud_size := 1, distance_to_closest_point := 1 }

/-- Claim C1, counterexample: the claim fails twice in the sC1 scenario.
On the first braking tick the code places the new goal at x = 1 (braking
distance abs(1 - 2) = 1 forward along the goal ray), while a braking point
at distance distance_to_closest - keep_distance = -1 along the goal vector
would sit at x = -1. On the immediately following braking tick (same
conditions, first_brake now cleared) the goal is not replaced at all and
stop_in_front_active is not latched, against the claim's every-tick
replacement and latch. -/
theorem C1_counterexample :
    (runPlanner geoC tdC1 sC1).goal.x = 1 ∧
    sC1.position.x + (tdC1.distance_to_closest_point - sC1.keep_distance) *
        (sC1.goal.x - sC1.position.x) /
        geoC.norm2 (sC1.goal.x - sC1.position.x)
          (sC1.goal.y - sC1.position.y) = -1 ∧
    (1 : ℚ) ≠ -1 ∧
    (runPlanner geoC tdC1 (runPlanner geoC tdC1 sC1)).goal =
      (runPlanner geoC tdC1 sC1).goal ∧
    (runPlanner geoC tdC1 (runPlanner geoC tdC1 sC1)).stop_in_front_active =
      false := by
  norm_num [runPlanner, determineStrategy, stopInFrontBranch,
    stopInFrontObstacles, create2DObstacleRepresentation, sC1, tdC1,
    baseState, tdBase, geoC, zeroVec]

/-- Claim C1, amended: on every planner tick where reach_altitude is true,
the filtered cloud has more than min_cloud_size points and stop_in_front is
enabled, runPlanner sets waypoint_type to direct; on the first such tick
(first_brake still pending) it latches stop_in_front_active, clears
first_brake, and replaces the goal by a braking point at distance
abs(distance_to_closest - keep_distance) from the current position along
the original horizontal goal direction; on later consecutive braking ticks
(first_brake already cleared) the goal is left unchanged and
stop_in_front_active stays unlatched. -/
theorem C1_amended (geo : Geo) (td : TickData) (s : PlannerState)
    (h1 : s.reach_altitude = true) (h2 : td.cloud_size > s.min_cloud_size)
    (h3 : s.stop_in_front = true) :
    (runPlanner geo td s).waypoint_type = WaypointType.direct ∧
    (s.first_brake = true →
      (runPlanner geo td s).stop_in_front_active = true ∧
      (runPlanner geo td s).first_brake = false ∧
      (runPlanner geo td s).goal =
        ⟨s.position.x + |td.distance_to_closest_point - s.keep_distance| *
            (s.goal.x - s.position.x) /
            geo.norm2 (s.goal.x - s.position.x) (s.goal.y - s.position.y),
          s.position.y + |td.distance_to_closest_point - s.keep_distance| *
            (s.goal.y - s.position.y) /
            geo.norm2 (s.goal.x - s.position.x) (s.goal.y - s.position.y),
          s.goal.z⟩) ∧
    (s.first_brake = false →
      (runPlanner geo td s).goal = s.goal ∧
      (runPlanner geo td s).stop_in_front_active = false ∧
      (runPlanner geo td s).first_brake = false) := by
  cases hsend : s.send_obstacles_fcu <;>
  cases hdis : s.disable_rise_to_goal_altitude <;>
  cases hfb : s.first_brake <;>
  simp [runPlanner, determineStrategy, stopInFrontBranch, stopInFrontObstacles,
    create2DObstacleRepresentation, h1, h2, h3, hsend, hdis, hfb]

/-- Claim C1, witness: the amended theorem applied to the sC1 scenario for
the first braking tick (goal moved to (1, 0, 5), latch set, first_brake
cleared) and again to the resulting state for the consecutive braking tick
(still direct, goal unchanged, latch unset). -/
theorem C1_witness :
    ((runPlanner geoC tdC1 sC1).waypoint_type = WaypointType.direct ∧
     (runPlanner geoC tdC1 sC1).stop_in_front_active = true ∧
     (runPlanner geoC tdC1 sC1).first_brake = false ∧
     (runPlanner geoC tdC1 sC1).goal = ⟨1, 0, 5⟩) ∧
    ((runPlanner geoC tdC1 (runPlanner geoC tdC1 sC1)).waypoint_type =
      WaypointType.direct ∧
     (runPlanner geoC tdC1 (runPlanner geoC tdC1 sC1)).goal = ⟨1, 0, 5⟩ ∧
     (runPlanner geoC tdC1
       (runPlanner geoC tdC1 sC1)).stop_in_front_active = false) := by
  have h := C1_amended geoC tdC1 sC1 rfl
    (by norm_num [sC1, tdC1, baseState, tdBase]) rfl
  have hgoal : (runPlanner geoC tdC1 sC1).goal = ⟨1, 0, 5⟩ := by
    rw [(h.2.1 rfl).2.2]
    norm_num [sC1, tdC1, geoC, baseState, tdBase, zeroVec]
  have ht1 : (runPlanner geoC tdC1 sC1).reach_altitude = true ∧
      (runPlanner geoC tdC1 sC1).stop_in_front = true ∧
      tdC1.cloud_size > (runPlanner geoC tdC1 sC1).min_cloud_size := by
    norm_num [runPlanner, determineStrategy, stopInFrontBranch,
      stopInFrontObstacles, create2DObstacleRepresentation, sC1, tdC1,
      baseState, tdBase, geoC, zeroVec]
  have h2 := C1_amended geoC tdC1 (runPlanner geoC tdC1 sC1)
    ht1.1 ht1.2.2 ht1.2.1
  have hfb1 := (h.2.1 rfl).2.1
  refine ⟨⟨h.1, (h.2.1 rfl).1, hfb1, hgoal⟩,
    h2.1, ?_, (h2.2.2 hfb1).2.1⟩
  rw [(h2.2.2 hfb1).1]
  exact hgoal

/-- Concrete scenario with back-off latched while stop_in_front is also
enabled and the filtered cloud is non-trivial. -/
def sC2 : PlannerState :=
  { baseState with reach_altitude := true, back_off := true,
                   use_back_off := true, stop_in_front := true,
                   position := ⟨0, 0, 5⟩, goal := ⟨3, 0, 5⟩,
                   keep_distance := 2 }

/-- Tick data for the sC2 scenario: one cloud point at distance 1. -/
def tdC2 : TickData :=
  { tdBase with cloud_size := 1, distance_to_closest_point := 1 }

/-- Claim C2, counterexample: with back_off set and use_back_off enabled,
a tick on which the stop-in-front branch applies (filtered cloud above
min_cloud_size and stop_in_front enabled) emits direct, not goBack, even
though the back-off state is still set and the vehicle has not retreated. -/
theorem C2_counterexample :
    sC2.back_off = true ∧ sC2.use_back_off = true ∧
    (runPlanner geoC tdC2 sC2).waypoint_type = WaypointType.direct ∧
    (runPlanner geoC tdC2 sC2).back_off = true ∧
    WaypointType.direct ≠ WaypointType.goBack := by
  have h : (runPlanner geoC tdC2 sC2).waypoint_type = WaypointType.direct ∧
      (runPlanner geoC tdC2 sC2).back_off = true := by
    norm_num [runPlanner, determineStrategy, stopInFrontBranch,
      stopInFrontObstacles, create2DObstacleRepresentation, sC2, tdC2,
      baseState, tdBase, geoC, zeroVec]
  exact ⟨rfl, rfl, h.1, h.2, by decide⟩

/-- Claim C2, amended: on every tick with use_back_off enabled,
reach_altitude still true and the stop-in-front branch not applicable
(filtered cloud at most min_cloud_size or stop_in_front disabled), entering
the back-off state records back_off_point as the closest obstacle and
back_off_start_point as the current position, and while the state is set
the tick emits goBack and keeps back_off set until the distance from the
position to back_off_point exceeds min_dist_backoff + 1.0, at which tick
back_off is cleared (that tick still emits goBack); ticks captured by the
stop-in-front branch emit direct and leave back_off untouched. -/
theorem C2_amended (geo : Geo) (td : TickData) (s : PlannerState)
    (hu : s.use_back_off = true) (hr : s.reach_altitude = true)
    (hs : ¬(td.cloud_size > s.min_cloud_size ∧ s.stop_in_front = true)) :
    (s.back_off = false → td.counter_close_points_backoff > 200 →
      td.cloud_size > s.min_cloud_size →
      (runPlanner geo td s).back_off = true ∧
      (runPlanner geo td s).back_off_point = td.closest_point ∧
      (runPlanner geo td s).back_off_start_point = s.position ∧
      (runPlanner geo td s).waypoint_type = WaypointType.goBack) ∧
    (s.back_off = true →
      (runPlanner geo td s).waypoint_type = WaypointType.goBack ∧
      (runPlanner geo td s).back_off_point = s.back_off_point ∧
      (geo.norm3 (s.position.sub s.back_off_point) > s.min_dist_backoff + 1 →
        (runPlanner geo td s).back_off = false) ∧
      (¬(geo.norm3 (s.position.sub s.back_off_point) > s.min_dist_backoff + 1) →
        (runPlanner geo td s).back_off = true)) := by
  constructor
  · intro hb hc hcl
    have hsf : ¬(s.stop_in_front = true) := fun h2 => hs ⟨hcl, h2⟩
    cases hsend : s.send_obstacles_fcu <;>
    cases hdis : s.disable_rise_to_goal_altitude <;>
    simp [runPlanner, determineStrategy, backOffBranch,
      create2DObstacleRepresentation, hu, hr, hb, hc, hcl, hsf, hsend, hdis]
  · intro hb
    cases hsend : s.send_obstacles_fcu <;>
    cases hdis : s.disable_rise_to_goal_altitude <;>
    by_cases hd : geo.norm3 (s.position.sub s.back_off_point) >
        s.min_dist_backoff + 1 <;>
    simp [runPlanner, determineStrategy, backOffBranch,
      create2DObstacleRepresentation, hu, hr, hb, hs, hsend, hdis, hd]

/-- Concrete back-off entry scenario: more than 200 very close points, a
non-trivial filtered cloud, use_back_off enabled and stop_in_front off. -/
def sC2w : PlannerState :=
  { baseState with reach_altitude := true, use_back_off := true,
                   position := ⟨0, 0, 5⟩ }

/-- Tick data for the sC2w scenario. -/
def tdC2w : TickData :=
  { tdBase with cloud_size := 1, counter_close_points_backoff := 300,
                closest_point := ⟨1, 2, 3⟩ }

/-- Claim C2, witness: the amended theorem applied to the concrete entry
scenario records the anchor points and emits goBack. -/
theorem C2_witness :
    (runPlanner geoC tdC2w sC2w).back_off = true ∧
    (runPlanner geoC tdC2w sC2w).back_off_point = ⟨1, 2, 3⟩ ∧
    (runPlanner geoC tdC2w sC2w).back_off_start_point = ⟨0, 0, 5⟩ ∧
    (runPlanner geoC tdC2w sC2w).waypoint_type = WaypointType.goBack :=
  (C2_amended geoC tdC2w sC2w rfl rfl (by decide)).1 rfl (by decide) (by decide)

/-- Concrete takeoff scenario: reach_altitude still false while the
vehicle already sits above the starting height. -/
def sC3 : PlannerState :=
  { baseState with reach_altitude := false, position := ⟨0, 0, 10⟩,
                   goal := ⟨0, 0, 5⟩ }

/-- Claim C3, counterexample: on the tick on which position.z first exceeds
starting_height the planner emits direct, not reachHeight, even though
reach_altitude was false when the tick started; the claim's assertion that
every tick with reach_altitude false has waypoint_type reachHeight is
therefore false. -/
theorem C3_counterexample :
    sC3.reach_altitude = false ∧
    sC3.position.z > max (sC3.goal.z - 1/2) (sC3.take_off_pose.z + 1) ∧
    (runPlanner geoC tdBase sC3).waypoint_type = WaypointType.direct ∧
    WaypointType.direct ≠ WaypointType.reachHeight := by
  refine ⟨rfl, by norm_num [sC3, baseState, zeroVec], ?_, by decide⟩
  norm_num [runPlanner, determineStrategy, reachHeightBranch,
    create2DObstacleRepresentation, sC3, tdBase, baseState, geoC, zeroVec]

/-- Claim C3, amended: whenever setPose is called while the vehicle is not
armed and rise-to-goal-altitude is enabled, take_off_pose is recorded as
the current position and reach_altitude is cleared; on every subsequent
runPlanner tick entered with reach_altitude false (rise enabled),
starting_height equals max(goal.z - 0.5, take_off_pose.z + 1.0), the tick
emits reachHeight while position.z is at most starting_height, and once
position.z exceeds starting_height reach_altitude becomes true and that
tick emits direct. -/
theorem C3_amended (getYaw getPitch : Quatf → ℚ) (sp : PlannerState)
    (pos : Vec3) (q : Quatf) (geo : Geo) (td : TickData) (s : PlannerState)
    (hna : sp.currently_armed = false)
    (hnd : sp.disable_rise_to_goal_altitude = false)
    (hd : s.disable_rise_to_goal_altitude = false)
    (hr : s.reach_altitude = false) :
    ((setPose getYaw getPitch sp pos q).take_off_pose = pos ∧
     (setPose getYaw getPitch sp pos q).reach_altitude = false) ∧
    ((runPlanner geo td s).starting_height =
        max (s.goal.z - 1/2) (s.take_off_pose.z + 1) ∧
     (¬(s.position.z > max (s.goal.z - 1/2) (s.take_off_pose.z + 1)) →
       (runPlanner geo td s).waypoint_type = WaypointType.reachHeight ∧
       (runPlanner geo td s).reach_altitude = false) ∧
     (s.position.z > max (s.goal.z - 1/2) (s.take_off_pose.z + 1) →
       (runPlanner geo td s).waypoint_type = WaypointType.direct ∧
       (runPlanner geo td s).reach_altitude = true)) := by
  constructor
  · simp [setPose, hna, hnd]
  · cases hsend : s.send_obstacles_fcu <;>
    by_cases hz : s.position.z > max (s.goal.z - 1/2) (s.take_off_pose.z + 1) <;>
    simp [runPlanner, determineStrategy, reachHeightBranch,
      create2DObstacleRepresentation, hd, hr, hz, hsend, -one_div,
      -gt_iff_lt, -not_lt, -not_le]

/-- Concrete takeoff scenario still below the starting height. -/
def sC3w : PlannerState :=
  { baseState with reach_altitude := false, position := ⟨0, 0, 2⟩,
                   goal := ⟨0, 0, 5⟩ }

/-- Claim C3, witness: the amended theorem applied to a concrete disarmed
setPose call and to a concrete tick below starting_height 4.5, which emits
reachHeight. -/
theorem C3_witness :
    ((setPose (fun _ => 0) (fun _ => 0) baseState ⟨1, 2, 0⟩
        ⟨1, 0, 0, 0⟩).take_off_pose = ⟨1, 2, 0⟩ ∧
     (setPose (fun _ => 0) (fun _ => 0) baseState ⟨1, 2, 0⟩
        ⟨1, 0, 0, 0⟩).reach_altitude = false) ∧
    ((runPlanner geoC tdBase sC3w).starting_height = 9/2 ∧
     (runPlanner geoC tdBase sC3w).waypoint_type = WaypointType.reachHeight ∧
     (runPlanner geoC tdBase sC3w).reach_altitude = false) := by
  have h := C3_amended (fun _ => 0) (fun _ => 0) baseState ⟨1, 2, 0⟩
    ⟨1, 0, 0, 0⟩ geoC tdBase sC3w rfl rfl rfl rfl
  have hz : ¬(sC3w.position.z >
      max (sC3w.goal.z - 1/2) (sC3w.take_off_pose.z + 1)) := by
    norm_num [sC3w, baseState, zeroVec]
  have hsh : max (sC3w.goal.z - 1/2) (sC3w.take_off_pose.z + 1) = 9/2 := by
    norm_num [sC3w, baseState, zeroVec]
  exact ⟨h.1, by rw [h.2.1, hsh], (h.2.2.1 hz).1, (h.2.2.1 hz).2⟩

/-- Concrete progress-rate scenario: adaptation enabled, empty incline
window of size 10, distance to goal grown by 1 in one second (positive
average incline above the zero no-progress slope), adapted weight 1. -/
def sC6 : PlannerState :=
  { baseState with reach_altitude := true, adapt_cost_params := true,
                   height_change_cost_param := 2,
                   height_change_cost_param_adapted := 1,
                   position := ⟨2, 0, 0⟩, position_old := ⟨1, 0, 0⟩ }

/-- Claim C6, counterexample: in the sC6 scenario the window average
exceeds no_progress_slope and the adapted weight is above the 0.75 floor,
yet the adapted height-change weight does not decrease by 0.02: the window
holds a single sample while the decrement additionally requires a full
window of dist_incline_window_size samples. -/
theorem C6_counterexample :
    avgIncline geoC 1 sC6 > sC6.no_progress_slope ∧
    sC6.height_change_cost_param_adapted > 3/4 ∧
    (evaluateProgressRate geoC 1 sC6).height_change_cost_param_adapted =
      sC6.height_change_cost_param_adapted ∧
    sC6.height_change_cost_param_adapted ≠
      sC6.height_change_cost_param_adapted - 1/50 := by
  norm_num [evaluateProgressRate, avgIncline, inclineWindow, tickIncline,
    sC6, baseState, geoC, zeroVec, Vec3.sub]

/-- Claim C6, amended: on each tick on which the adaptation step runs with
reach_altitude and adapt_cost_params set, the incline window is updated by
pushing this tick's goal-distance derivative (popping the front on
overflow); the adapted height-change weight decreases by 0.02 only when
the window average exceeds no_progress_slope, the window is full and the
weight is above 0.75, increases by 0.03 only when the average is below
no_progress_slope and the weight is below the nominal weight minus 0.03,
and is otherwise unchanged; when reach_altitude or adapt_cost_params is
unset the adapted weight is reset to the nominal weight. -/
theorem C6_amended (geo : Geo) (dt : ℚ) (s : PlannerState) :
    (s.reach_altitude = true → s.adapt_cost_params = true →
      (evaluateProgressRate geo dt s).goal_dist_incline =
          inclineWindow geo dt s ∧
      (avgIncline geo dt s > s.no_progress_slope →
        ((inclineWindow geo dt s).length = s.dist_incline_window_size →
          (s.height_change_cost_param_adapted > 3/4 →
            (evaluateProgressRate geo dt s).height_change_cost_param_adapted =
              s.height_change_cost_param_adapted - 1/50) ∧
          (¬s.height_change_cost_param_adapted > 3/4 →
            (evaluateProgressRate geo dt s).height_change_cost_param_adapted =
              s.height_change_cost_param_adapted)) ∧
        ((inclineWindow geo dt s).length ≠ s.dist_incline_window_size →
          (evaluateProgressRate geo dt s).height_change_cost_param_adapted =
            s.height_change_cost_param_adapted)) ∧
      (avgIncline geo dt s < s.no_progress_slope →
        (s.height_change_cost_param_adapted <
            s.height_change_cost_param - 3/100 →
          (evaluateProgressRate geo dt s).height_change_cost_param_adapted =
            s.height_change_cost_param_adapted + 3/100) ∧
        (¬s.height_change_cost_param_adapted <
            s.height_change_cost_param - 3/100 →
          (evaluateProgressRate geo dt s).height_change_cost_param_adapted =
            s.height_change_cost_param_adapted))) ∧
    (¬(s.reach_altitude = true ∧ s.adapt_cost_params = true) →
      (evaluateProgressRate geo dt s).height_change_cost_param_adapted =
        s.height_change_cost_param) := by
  constructor
  · intro hr ha
    refine ⟨?_, ?_, ?_⟩
    · simp [evaluateProgressRate, hr, ha]
    · intro hgt
      have hnlt : ¬avgIncline geo dt s < s.no_progress_slope := lt_asymm hgt
      refine ⟨fun hfull => ⟨fun hcp => ?_, fun hcp => ?_⟩, fun hfull => ?_⟩
      · simp [evaluateProgressRate, hr, ha, hgt, hfull, hcp, hnlt,
          -gt_iff_lt, -not_lt, -not_le]
      · simp [evaluateProgressRate, hr, ha, hgt, hfull, hcp, hnlt,
          -gt_iff_lt, -not_lt, -not_le]
      · simp [evaluateProgressRate, hr, ha, hgt, hfull, hnlt,
          -gt_iff_lt, -not_lt, -not_le]
    · intro hlt
      have hngt : ¬avgIncline geo dt s > s.no_progress_slope := lt_asymm hlt
      refine ⟨fun hcp => ?_, fun hcp => ?_⟩ <;>
      simp [evaluateProgressRate, hr, ha, hlt, hcp, hngt,
        -gt_iff_lt, -not_lt, -not_le]
  · intro hna
    simp [evaluateProgressRate, hna]

/-- The sC6 scenario with window size 1, so the single pushed sample
already fills the window and the decrement fires. -/
def sC6w : PlannerState :=
  { sC6 with dist_incline_window_size := 1 }

/-- Claim C6, witness: the amended theorem applied to the concrete sC6w
scenario; the adapted weight drops from 1 to 0.98. -/
theorem C6_witness :
    (evaluateProgressRate geoC 1 sC6w).height_change_cost_param_adapted =
      49/50 := by
  have hgt : avgIncline geoC 1 sC6w > sC6w.no_progress_slope := by
    norm_num [avgIncline, inclineWindow, tickIncline, sC6w, sC6, baseState,
      geoC, zeroVec, Vec3.sub]
  have hfull : (inclineWindow geoC 1 sC6w).length =
      sC6w.dist_incline_window_size := by
    norm_num [inclineWindow, tickIncline, sC6w, sC6, baseState, geoC,
      zeroVec, Vec3.sub]
  have hcp : sC6w.height_change_cost_param_adapted > 3/4 := by
    norm_num [sC6w, sC6, baseState]
  have h := ((((C6_amended geoC 1 sC6w).1 rfl rfl).2.1 hgt).1 hfull).1 hcp
  rw [h]
  norm_num [sC6w, sC6, baseState]

/-- Claim C7: on a tick that reaches the cost-map step (altitude reached,
neither the stop-in-front nor the back-off branch applicable) with
use_VFH_star false and a non-empty combined histogram, an empty candidate
list makes the planner fall back to stop-in-front behavior: waypoint_type
becomes direct and stop_in_front latches true; with a non-empty candidate
list waypoint_type is costmap and the best candidate's elevation and
azimuth are stored as the costmap direction. -/
theorem C7_empty_candidates (geo : Geo) (td : TickData) (s : PlannerState)
    (hr : s.reach_altitude = true)
    (hsif : ¬(td.cloud_size > s.min_cloud_size ∧ s.stop_in_front = true))
    (hbo : ¬(((td.counter_close_points_backoff > 200 ∧
          td.cloud_size > s.min_cloud_size) ∨ s.back_off = true) ∧
        s.use_back_off = true))
    (hh : td.hist_is_empty = false) (hv : s.use_VFH_star = false) :
    (td.candidates = [] →
      (runPlanner geo td s).waypoint_type = WaypointType.direct ∧
      (runPlanner geo td s).stop_in_front = true) ∧
    (∀ c rest, td.candidates = c :: rest →
      (runPlanner geo td s).waypoint_type = WaypointType.costmap ∧
      (runPlanner geo td s).costmap_direction_e = c.elevation_angle ∧
      (runPlanner geo td s).costmap_direction_z = c.azimuth_angle) := by
  constructor
  · intro hc
    cases hdis : s.disable_rise_to_goal_altitude <;>
    cases hsend : s.send_obstacles_fcu <;>
    cases hada : s.adapt_cost_params <;>
    simp [runPlanner, determineStrategy, costmapBranch, evaluateProgressRate,
      create2DObstacleRepresentation, stopInFrontObstacles, hr, hsif, hbo,
      hh, hv, hc, hada, hdis, hsend]
  · intro c rest hc
    cases hdis : s.disable_rise_to_goal_altitude <;>
    cases hsend : s.send_obstacles_fcu <;>
    cases hada : s.adapt_cost_params <;>
    simp [runPlanner, determineStrategy, costmapBranch, evaluateProgressRate,
      create2DObstacleRepresentation, hr, hsif, hbo, hh, hv, hc, hada,
      hdis, hsend]

/-- Tick data for the C7 witness: non-empty combined histogram and a single
best candidate at elevation 12, azimuth 30. -/
def tdC7 : TickData :=
  { tdBase with hist_is_empty := false,
                candidates := [⟨12, 30⟩] }

/-- Claim C7, witness: the theorem applied to a concrete tick with one
candidate; the planner emits costmap with the candidate's direction. -/
theorem C7_witness :
    (runPlanner geoC tdC7 baseState).waypoint_type = WaypointType.costmap ∧
    (runPlanner geoC tdC7 baseState).costmap_direction_e = 12 ∧
    (runPlanner geoC tdC7 baseState).costmap_direction_z = 30 :=
  (C7_empty_candidates geoC tdC7 baseState rfl (by decide) (by decide)
      rfl rfl).2 ⟨12, 30⟩ [] rfl

/-- Claim C4, counterexample: the obstacle-distance ring has 60 bins of 6
degrees (GRID_LENGTH_Z with the spec's ALPHA_RES = 6), not 360 bins of 1
degree, and a bin outside the FOV holds the maximum-u16 sentinel 65535, not
the no-data value max range + 1 = 21: with FOV azimuth indices 1, 2, 3
(rotated north to 31, 32, 33), bin 0 is outside the FOV and holds 65535. -/
theorem C4_counterexample :
    (updateObstacleDistanceMsg (fun _ _ => 0) [1, 2, 3]).length = 60 ∧
    (60 : ℕ) ≠ 360 ∧
    (updateObstacleDistanceMsg (fun _ _ => 0) [1, 2, 3]).getD 0 0 =
      UINT16_MAX ∧
    UINT16_MAX ≠ range_max + 1 := by
  refine ⟨by decide, by norm_num, by decide, ?_⟩
  norm_num [UINT16_MAX, range_max]

/-- Claim C4, amended: the obstacle-distance array is a
GRID_LENGTH_Z-bin ring (60 bins of ALPHA_RES = 6 degrees each): each bin
whose index lies in the 180-degree-rotated FOV azimuth set holds the
elevation-0 distance of the compressed histogram at the rotated-back index
when that cell is non-zero, and the no-data marker max range + 1 when the
cell is zero; every bin outside the rotated FOV set holds the maximum-u16
sentinel. -/
theorem C4_amended (hist : ℕ → ℕ → ℚ) (z_FOV_idx : List ℤ) (idx : ℕ)
    (h : idx < GRID_LENGTH_Z) :
    (updateObstacleDistanceMsg hist z_FOV_idx).length = GRID_LENGTH_Z ∧
    ((idx : ℤ) ∉ z_FOV_idx.map northIndex →
      (updateObstacleDistanceMsg hist z_FOV_idx).getD idx 0 = UINT16_MAX) ∧
    ((idx : ℤ) ∈ z_FOV_idx.map northIndex →
      (updateObstacleDistanceMsg hist z_FOV_idx).getD idx 0 =
        (if hist 0 (southIndex (idx : ℤ)).toNat = 0 then range_max + 1
         else hist 0 (southIndex (idx : ℤ)).toNat)) := by
  have hlen : (updateObstacleDistanceMsg hist z_FOV_idx).length =
      GRID_LENGTH_Z := by
    simp only [updateObstacleDistanceMsg, List.length_map, List.length_range]
  have hidx : idx < (updateObstacleDistanceMsg hist z_FOV_idx).length := by
    rw [hlen]
    exact h
  have hbin : (updateObstacleDistanceMsg hist z_FOV_idx).getD idx 0 =
      obstacleDistanceBin hist (z_FOV_idx.map northIndex) (idx : ℤ) := by
    rw [List.getD_eq_getElem _ _ hidx]
    simp only [updateObstacleDistanceMsg, List.getElem_map, List.getElem_range]
  refine ⟨hlen, fun hmem => ?_, fun hmem => ?_⟩
  · rw [hbin]
    unfold obstacleDistanceBin
    rw [if_pos hmem]
  · rw [hbin]
    unfold obstacleDistanceBin
    rw [if_neg (not_not_intro hmem)]

/-- Claim C4, witness: the amended theorem applied to the concrete FOV
index set 1, 2, 3 and the all-zero compressed histogram; the in-FOV bin 31
holds the no-data value 21 and the ring has 60 bins. -/
theorem C4_witness :
    (updateObstacleDistanceMsg (fun _ _ => 0) [1, 2, 3]).length = 60 ∧
    (updateObstacleDistanceMsg (fun _ _ => 0) [1, 2, 3]).getD 31 0 = 21 := by
  have h := C4_amended (fun _ _ => 0) [1, 2, 3] 31 (by decide)
  have hm : ((31 : ℕ) : ℤ) ∈ ([1, 2, 3] : List ℤ).map northIndex := by decide
  refine ⟨h.1, ?_⟩
  rw [h.2.2 hm]
  norm_num [range_max]

/-- Claim C5: a pair is in the reprojected output exactly when it is one of
the four corner points of a histogram cell whose distance exceeds FLT_MIN
(the source's non-emptiness test), cast through the previous vehicle
position, whose distance to the current position is strictly between 0.3
and twice the box radius, and whose cell age is below reproj_age; the
recorded age is the cell's age (the parallel age array is the second
component of the pair list). -/
theorem C5_reprojected_points (p2c : PolarPoint → Vec3 → Vec3)
    (norm3 : Vec3 → ℚ) (hist_dist : ℕ → ℕ → ℚ) (hist_age : ℕ → ℕ → ℤ)
    (position position_old : Vec3) (box_radius reproj_age : ℚ)
    (pt : Vec3) (a : ℤ) :
    (pt, a) ∈ reprojectPoints p2c norm3 hist_dist hist_age position
        position_old box_radius reproj_age ↔
    ∃ e z, e < GRID_LENGTH_E ∧ z < GRID_LENGTH_Z ∧
      fltMin < hist_dist e z ∧ a = hist_age e z ∧
      ∃ pp ∈ cellCorners e z (hist_dist e z),
        pt = p2c pp position_old ∧
        norm3 (position.sub pt) < 2 * box_radius ∧
        norm3 (position.sub pt) > 3/10 ∧ (a : ℚ) < reproj_age := by
  simp only [reprojectPoints, List.mem_flatMap, List.mem_range]
  constructor
  · rintro ⟨e, he, z, hz, hmem⟩
    split at hmem
    case isTrue hd =>
      obtain ⟨pp, hpp, heq⟩ := List.mem_filterMap.mp hmem
      split at heq
      case isTrue hcond =>
        obtain ⟨h1, h2, h3⟩ := hcond
        rw [Option.some.injEq, Prod.mk.injEq] at heq
        obtain ⟨hpt, ha⟩ := heq
        subst hpt
        subst ha
        exact ⟨e, z, he, hz, hd, rfl, pp, hpp, rfl, h1, h2, h3⟩
      case isFalse =>
        exact absurd heq (by simp)
    case isFalse hd =>
      exact absurd hmem (List.not_mem_nil _)
  · rintro ⟨e, z, he, hz, hd, ha, pp, hpp, hpt, hlt, hgt, hage⟩
    subst ha
    subst hpt
    refine ⟨e, he, z, hz, ?_⟩
    rw [if_pos hd]
    refine List.mem_filterMap.mpr ⟨pp, hpp, ?_⟩
    simp [hlt, hgt, hage]

end Avoidance
